import Mathlib

/-!
Shallow embedding of `src/extension/src/relayConnection.ts` (class
`RelayConnection`).  The mutable fields of the class become a `RelayState`
record; the Chrome debugger / tabs APIs become an abstract `Backend` oracle
whose operations return `Except String`; each method of the class becomes a
pure function from a state, a backend and its inputs to the resulting state,
the list of backend calls it issued and the messages it sent.  JavaScript
truthiness (empty strings, the number 0, `undefined`) and `parseInt` are
modelled explicitly so the translation tracks the source line by line.
-/

namespace ApplyBotRelay

/-- Truthiness of an optional JS string: `undefined` and the empty string are
falsy, every other string is truthy. -/
def truthyStr : Option String → Bool
  | some str => str ≠ ""
  | none => false

/-- The JS `a || b` operator on optional strings: returns `a` when it is
truthy, otherwise `b`. -/
def jsOrStr (a b : Option String) : Option String :=
  if truthyStr a then a else b

/-- Truthiness of an optional JS number holding a tab id: `undefined` and `0`
are falsy. -/
def truthyNat : Option Nat → Bool
  | some n => n ≠ 0
  | none => false

/-- Longest run of decimal digits at the head of a character list. -/
def leadingDigits : List Char → List Char
  | [] => []
  | c :: cs => if c.isDigit then c :: leadingDigits cs else []

/-- Numeric value of a list of decimal digits. -/
def digitsToNat (ds : List Char) : Nat :=
  ds.foldl (fun acc c => acc * 10 + (c.toNat - 48)) 0

/-- Model of the JS `parseInt(s, 10)`: skip leading whitespace, read an
optional sign and then the longest run of digits; `none` models `NaN`. -/
def jsParseInt (s : String) : Option Int :=
  let cs := s.data.dropWhile (fun c => c = ' ' || c = '\t' || c = '\n' || c = '\r')
  match cs with
  | '-' :: r =>
    let ds := leadingDigits r
    if ds.isEmpty then none else some (-(digitsToNat ds : Int))
  | '+' :: r =>
    let ds := leadingDigits r
    if ds.isEmpty then none else some (digitsToNat ds : Int)
  | r =>
    let ds := leadingDigits r
    if ds.isEmpty then none else some (digitsToNat ds : Int)

/-- Model of the JS `s.substring(n)` for ASCII strings. -/
def dropChars (s : String) (n : Nat) : String :=
  ⟨s.data.drop n⟩

/-- Model of the JS `s.startsWith('tab-')` (the only pattern the source
tests). -/
def strStartsWithTab (s : String) : Bool :=
  s.data.take 4 == "tab-".data

/-- JS `Set.add`: a list kept duplicate-free by inserting only new elements. -/
def setInsert (l : List Nat) (x : Nat) : List Nat :=
  if x ∈ l then l else l ++ [x]

/-- JS `Set.delete`. -/
def setDelete (l : List Nat) (x : Nat) : List Nat :=
  l.filter (fun y => y ≠ x)

/-- JS `Map.set`: replace the value of an existing key in place, otherwise
append the binding. -/
def mapSet : List (Nat × String) → Nat → String → List (Nat × String)
  | [], k, v => [(k, v)]
  | (k', v') :: rest, k, v =>
    if k' = k then (k, v) :: rest else (k', v') :: mapSet rest k v

/-- JS `Map.delete`. -/
def mapDelete (m : List (Nat × String)) (k : Nat) : List (Nat × String) :=
  m.filter (fun p => p.1 ≠ k)

/-- The native target descriptor returned by the `Target.getTargetInfo`
command.  Fields the source reads; each may be absent. -/
structure TargetInfo where
  targetId : Option String
  targetType : Option String
  url : Option String
  title : Option String
  browserContextId : Option String
deriving DecidableEq, Repr

/-- Host tab metadata returned by `chrome.tabs.get`. -/
structure TabInfo where
  url : Option String
  title : Option String
deriving DecidableEq, Repr

/-- The mutable fields of `RelayConnection`.  `debuggeeTabId` is the `tabId`
field of `this._debuggee` (`none` models the empty object `{}`);
`tabResolved` records whether `this._tabPromise` has been resolved by
`setTabId`; `listenersActive` records whether the four Chrome listeners are
registered. -/
structure RelayState where
  debuggeeTabId : Option Nat
  tabResolved : Bool
  closed : Bool
  listenersActive : Bool
  childTabs : List Nat
  tabIdToTargetId : List (Nat × String)
  mainTabTargetId : Option String
deriving DecidableEq, Repr

/-- State right after the constructor ran. -/
def initialState : RelayState :=
  { debuggeeTabId := none
    tabResolved := false
    closed := false
    listenersActive := true
    childTabs := []
    tabIdToTargetId := []
    mainTabTargetId := none }

/-- Translation of `setTabId`: store the debuggee and resolve the tab
promise.  (The chained check for existing child tabs is modelled by separate
`attachToNewTab` steps.) -/
def setTabId (s : RelayState) (tabId : Nat) : RelayState :=
  { s with debuggeeTabId := some tabId, tabResolved := true }

/-- Abstract backend oracle for the Chrome APIs the source calls.  Each
operation may fail (`Except.error` models a rejected promise).
`getTargetInfo` is `chrome.debugger.sendCommand(_, 'Target.getTargetInfo')`
with an `Option` for the JS `result?.targetInfo` access; `getTab` returns
`none` when the resolved tab value is falsy. -/
structure Backend where
  attachOk : Option Nat → Except String Unit
  getTargetInfo : Option Nat → Except String (Option TargetInfo)
  sendCmd : Option Nat → Option String → String → Except String String
  detachOk : Nat → Except String Unit
  getTab : Nat → Except String (Option TabInfo)

/-- Ghost trace of the backend operations a handler issued, in order. -/
inductive BackendCall where
  | attach (tabId : Option Nat)
  | sendCommand (tabId : Option Nat) (sessionId : Option String) (method : String)
  | detach (tabId : Option Nat)
  | getTab (tabId : Nat)
deriving DecidableEq, Repr

/-- Successful result of `_handleCommand`: the `attachToTab` descriptor
object, a verbatim forwarded backend payload, or the empty object `{}`. -/
inductive CmdResult where
  | targetInfoRes (ti : Option TargetInfo)
  | forwarded (payload : String)
  | emptyObj
deriving DecidableEq, Repr

/-- Outcome of one `_handleCommand` run: a JS return value (`ok none` is the
implicit `undefined` of a fall-through), a thrown error, or a handler still
suspended on the unresolved tab promise. -/
inductive Outcome where
  | ok (r : Option CmdResult)
  | err (e : String)
  | blocked
deriving DecidableEq, Repr

/-- The error thrown by `_handleCommand` when no tab is connected. -/
def notReadyError : String :=
  "No tab is connected. Please go to the Playwright MCP extension and select the tab you want to connect to."

/-- The `DebuggerSession` object passed to `chrome.debugger.sendCommand`. -/
structure DebuggerSession where
  tabId : Option Nat
  sessionId : Option String
deriving DecidableEq, Repr

/-- Decoded inbound command envelope (`attachToTab`, `forwardCDPCommand`
with its outer `sessionId`, forwarded `method` and the `sessionId` inside
the forwarded params, or any other method). -/
inductive Command where
  | attachToTab
  | forwardCDP (sessionId : Option String) (method : String) (paramsSessionId : Option String)
  | unknown (m : String)
deriving DecidableEq, Repr

/-- Translation of the child-tab test applied to a session-id string:
`sid.startsWith('tab-')`, then `parseInt(sid.substring(4), 10)`, then
membership in `_childTabs` (the `NaN` and negative cases can never be
members). -/
def knownChildOf (childTabs : List Nat) (sid : String) : Option Nat :=
  if strStartsWithTab sid = true then
    match jsParseInt (dropChars sid 4) with
    | some n => if 0 ≤ n ∧ n.toNat ∈ childTabs then some n.toNat else none
    | none => none
  else none

/-- Translation of the session-resolution chain of `_handleCommand` for a
general forwarded command (source lines 233 to 265): a known child gets its
own tab id; an unknown `tab-` session falls back to the main debuggee with
the session id kept; any other truthy session id is dropped and the main
debuggee used; absent or empty means the main debuggee. -/
def resolveSession (s : RelayState) (sid : Option String) : DebuggerSession :=
  match sid with
  | some str =>
    if str ≠ "" ∧ strStartsWithTab str = true then
      match knownChildOf s.childTabs str with
      | some c => { tabId := some c, sessionId := none }
      | none => { tabId := s.debuggeeTabId, sessionId := some str }
    else if str ≠ "" then { tabId := s.debuggeeTabId, sessionId := none }
    else { tabId := s.debuggeeTabId, sessionId := none }
  | none => { tabId := s.debuggeeTabId, sessionId := none }

/-- Translation of the `attachToTab` branch of `_handleCommand` (source
lines 186 to 200): wait for the tab promise, attach to the debuggee, query
its descriptor, record the main target id when truthy, and return the
descriptor object. -/
def handleAttachToTab (s : RelayState) (b : Backend) :
    Outcome × RelayState × List BackendCall :=
  if s.tabResolved then
    match b.attachOk s.debuggeeTabId with
    | .error e => (.err e, s, [.attach s.debuggeeTabId])
    | .ok _ =>
      match b.getTargetInfo s.debuggeeTabId with
      | .error e =>
        (.err e, s,
          [.attach s.debuggeeTabId, .sendCommand s.debuggeeTabId none "Target.getTargetInfo"])
      | .ok tiOpt =>
        let s' :=
          match tiOpt with
          | some ti =>
            if truthyStr ti.targetId then
              { s with
                mainTabTargetId := ti.targetId
                tabIdToTargetId :=
                  mapSet s.tabIdToTargetId (s.debuggeeTabId.getD 0) (ti.targetId.getD "") }
            else s
          | none => s
        (.ok (some (.targetInfoRes tiOpt)), s',
          [.attach s.debuggeeTabId, .sendCommand s.debuggeeTabId none "Target.getTargetInfo"])
  else (.blocked, s, [])

/-- Translation of the `Target.detachFromTarget` special case of
`_handleCommand` (source lines 209 to 231): a known child named by the
`sessionId` inside the forwarded params is detached directly and removed
from both containers with `{}` returned; every other shape falls through to
a plain forward to the main debuggee without a session id. -/
def handleDetachFromTarget (s : RelayState) (b : Backend) (psid : Option String) :
    Outcome × RelayState × List BackendCall :=
  match (match psid with
         | some tsid => knownChildOf s.childTabs tsid
         | none => none) with
  | some c =>
    match b.detachOk c with
    | .error e => (.err e, s, [.detach (some c)])
    | .ok _ =>
      (.ok (some .emptyObj),
        { s with
          childTabs := setDelete s.childTabs c
          tabIdToTargetId := mapDelete s.tabIdToTargetId c },
        [.detach (some c)])
  | none =>
    match b.sendCmd s.debuggeeTabId none "Target.detachFromTarget" with
    | .ok r =>
      (.ok (some (.forwarded r)), s,
        [.sendCommand s.debuggeeTabId none "Target.detachFromTarget"])
    | .error e =>
      (.err e, s, [.sendCommand s.debuggeeTabId none "Target.detachFromTarget"])

/-- Translation of the general forward branch of `_handleCommand` (source
lines 233 to 272): resolve the session, issue the command, return the
backend result verbatim. -/
def handleForward (s : RelayState) (b : Backend) (sid : Option String) (method : String) :
    Outcome × RelayState × List BackendCall :=
  match b.sendCmd (resolveSession s sid).tabId (resolveSession s sid).sessionId method with
  | .ok r =>
    (.ok (some (.forwarded r)), s,
      [.sendCommand (resolveSession s sid).tabId (resolveSession s sid).sessionId method])
  | .error e =>
    (.err e, s,
      [.sendCommand (resolveSession s sid).tabId (resolveSession s sid).sessionId method])

/-- Translation of `_handleCommand` (source lines 185 to 274).  The guard on
`this._debuggee.tabId` precedes every method other than `attachToTab`; a
method that matches neither branch falls off the end of the function and
returns the JS `undefined`, modelled as `ok none`. -/
def handleCommand (s : RelayState) (b : Backend) (c : Command) :
    Outcome × RelayState × List BackendCall :=
  match c with
  | .attachToTab => handleAttachToTab s b
  | .forwardCDP sid method psid =>
    if truthyNat s.debuggeeTabId then
      if method = "Target.detachFromTarget" then handleDetachFromTarget s b psid
      else handleForward s b sid method
    else (.err notReadyError, s, [])
  | .unknown _ =>
    if truthyNat s.debuggeeTabId then (.ok none, s, [])
    else (.err notReadyError, s, [])

/-- Outbound response envelope built by `_onMessageAsync`: `none` in a field
models a property that `JSON.stringify` drops because its value is
`undefined`. -/
structure OutResponse where
  id : Nat
  result : Option CmdResult
  error : Option String
deriving DecidableEq, Repr

/-- Translation of the response construction of `_onMessageAsync` (source
lines 160 to 183): pair the outcome with the request id; a handler still
blocked on the tab promise has sent nothing yet. -/
def responseFor (s : RelayState) (b : Backend) (n : Nat) (c : Command) :
    Option OutResponse :=
  match (handleCommand s b c).1 with
  | .ok r => some { id := n, result := r, error := none }
  | .err e => some { id := n, result := none, error := some e }
  | .blocked => none

/-- Sequential processing of a list of inbound commands, collecting the
backend-call trace. -/
def runCommands (s : RelayState) (b : Backend) : List Command → RelayState × List BackendCall
  | [] => (s, [])
  | c :: cs =>
    let r := handleCommand s b c
    let rest := runCommands r.2.1 b cs
    (rest.1, r.2.2 ++ rest.2)

/-- The observable steps `_onClose` performs, in source order. -/
inductive TeardownAction where
  | removeListeners
  | detachChild (tabId : Nat)
  | clearChildren
  | clearMap
  | detachPrimary (tabId : Option Nat)
  | fireOnClose
deriving DecidableEq, Repr

/-- Translation of `_onClose` (source lines 87 to 103): a second entry is a
no-op; otherwise remove the four listeners, best-effort detach every child
(each detach carries its own swallow-all catch, so the action list does not
depend on backend results), clear both containers, best-effort detach the
primary debuggee, and fire the `onclose` notification. -/
def onClose (s : RelayState) : RelayState × List TeardownAction :=
  if s.closed then (s, [])
  else
    ({ s with closed := true, listenersActive := false, childTabs := [], tabIdToTargetId := [] },
      TeardownAction.removeListeners ::
        (s.childTabs.map TeardownAction.detachChild ++
          [TeardownAction.clearChildren, TeardownAction.clearMap,
            TeardownAction.detachPrimary s.debuggeeTabId, TeardownAction.fireOnClose]))

/-- Synthesized `Target.attachedToTarget` payload (source lines 376 to 395). -/
structure AttachedEvent where
  sessionId : String
  targetId : String
  targetType : String
  url : String
  title : String
  openerId : Option String
  browserContextId : Option String
deriving DecidableEq, Repr

/-- Outbound `forwardCDPEvent` messages the child lifecycle paths emit. -/
inductive OutEvent where
  | attachedToTarget (e : AttachedEvent)
  | detachedFromTarget (targetId : String)
deriving DecidableEq, Repr

/-- Translation of `_onDebuggerDetach` (source lines 131 to 154): a source
whose `tabId` strictly equals the debuggee `tabId` (JS `===`, with
`undefined === undefined` true) closes the whole session and clears the
debuggee; a known child is removed from both containers and a
`Target.detachedFromTarget` event is emitted with the recorded target id or
the derived fallback. -/
def onDebuggerDetach (s : RelayState) (sourceTabId : Option Nat) :
    RelayState × List TeardownAction × List OutEvent :=
  if sourceTabId = s.debuggeeTabId then
    let r := onClose s
    ({ r.1 with debuggeeTabId := none }, r.2, [])
  else
    match sourceTabId with
    | some t =>
      if t ∈ s.childTabs then
        ({ s with
            childTabs := setDelete s.childTabs t
            tabIdToTargetId := mapDelete s.tabIdToTargetId t },
          [],
          [OutEvent.detachedFromTarget
            ((jsOrStr (s.tabIdToTargetId.lookup t) (some ("tab-" ++ toString t))).getD "")])
      else (s, [], [])
    | none => (s, [], [])

/-- The abort condition at the top of `_attachToNewTab` (source line 339). -/
def attachAborts (s : RelayState) (tabId : Nat) : Prop :=
  s.closed = true ∨ tabId ∈ s.childTabs

instance (s : RelayState) (tabId : Nat) : Decidable (attachAborts s tabId) := by
  unfold attachAborts; infer_instance

/-- State after the line that adds the freshly attached candidate to
`_childTabs` (source line 345). -/
def childAdded (s : RelayState) (tabId : Nat) : RelayState :=
  { s with childTabs := setInsert s.childTabs tabId }

/-- The `actualTargetId` of the attach procedure (source line 363): the
descriptor target id or the derived fallback string. -/
def childTargetId (ti : TargetInfo) (tabId : Nat) : String :=
  (jsOrStr ti.targetId (some ("tab-" ++ toString tabId))).getD ""

/-- State after the line that records the child target id in
`_tabIdToTargetId` (source line 366). -/
def childWithTarget (s : RelayState) (tabId : Nat) (ti : TargetInfo) : RelayState :=
  { childAdded s tabId with
    tabIdToTargetId :=
      mapSet (childAdded s tabId).tabIdToTargetId tabId (childTargetId ti tabId) }

/-- Continuation of `_attachToNewTab` from the point where the backend
attach call has resolved successfully (source lines 345 to 395): record the
child, fetch its descriptor and host tab metadata, record the target id,
fetch the main descriptor, and emit the synthesized attach event.  Every
failure is caught and leaves the state as mutated so far. -/
def attachToNewTabResume (s : RelayState) (b : Backend) (tabId : Nat) :
    RelayState × List OutEvent × List BackendCall :=
  match b.getTargetInfo (some tabId) with
  | .error _ => (childAdded s tabId, [], [.sendCommand (some tabId) none "Target.getTargetInfo"])
  | .ok none => (childAdded s tabId, [], [.sendCommand (some tabId) none "Target.getTargetInfo"])
  | .ok (some ti) =>
    match b.getTab tabId with
    | .error _ =>
      (childAdded s tabId, [],
        [.sendCommand (some tabId) none "Target.getTargetInfo", .getTab tabId])
    | .ok none =>
      (childAdded s tabId, [],
        [.sendCommand (some tabId) none "Target.getTargetInfo", .getTab tabId])
    | .ok (some tab) =>
      if truthyNat s.debuggeeTabId then
        match b.getTargetInfo s.debuggeeTabId with
        | .error _ =>
          (childWithTarget s tabId ti, [],
            [.sendCommand (some tabId) none "Target.getTargetInfo", .getTab tabId,
              .sendCommand s.debuggeeTabId none "Target.getTargetInfo"])
        | .ok mainTiOpt =>
          (childWithTarget s tabId ti,
            [OutEvent.attachedToTarget
              { sessionId := "tab-" ++ toString tabId
                targetId := childTargetId ti tabId
                targetType := "page"
                url := (jsOrStr (jsOrStr tab.url ti.url) (some "")).getD ""
                title := (jsOrStr (jsOrStr tab.title ti.title) (some "")).getD ""
                openerId := jsOrStr s.mainTabTargetId (mainTiOpt.bind TargetInfo.targetId)
                browserContextId :=
                  jsOrStr (mainTiOpt.bind TargetInfo.browserContextId) ti.browserContextId }],
            [.sendCommand (some tabId) none "Target.getTargetInfo", .getTab tabId,
              .sendCommand s.debuggeeTabId none "Target.getTargetInfo"])
      else
        (childAdded s tabId, [],
          [.sendCommand (some tabId) none "Target.getTargetInfo", .getTab tabId])

/-- Translation of `_attachToNewTab` run without interleaving (source lines
338 to 403): abort if closed or already known, attach to the candidate (a
rejected attach is caught with no state change), then run the continuation. -/
def attachToNewTab (s : RelayState) (b : Backend) (tabId : Nat) :
    RelayState × List OutEvent × List BackendCall :=
  if attachAborts s tabId then (s, [], [])
  else
    match b.attachOk (some tabId) with
    | .error _ => (s, [], [.attach (some tabId)])
    | .ok _ =>
      let r := attachToNewTabResume s b tabId
      (r.1, r.2.1, .attach (some tabId) :: r.2.2)

/-- Modelled from the spec (section 4.1 routing rule, claim C2): the backend
handle a forwarded command should be issued against — the primary target for
an absent or empty session id, the child for a known `tab-N` session id, and
the primary target in every other case. -/
def specRouteTab (s : RelayState) (sid : Option String) : Option Nat :=
  match sid with
  | none => s.debuggeeTabId
  | some str =>
    if str = "" then s.debuggeeTabId
    else
      match knownChildOf s.childTabs str with
      | some c => some c
      | none => s.debuggeeTabId

/-- Does a backend call invoke the attach primitive? -/
def isAttachCall : BackendCall → Bool
  | .attach _ => true
  | _ => false

/-- Is a teardown action the firing of the session close notification? -/
def isFireClose : TeardownAction → Bool
  | .fireOnClose => true
  | _ => false

/-- Strip the `Except` wrapper of a descriptor query, keeping the optional
descriptor a successful reply carried. -/
def exceptTI : Except String (Option TargetInfo) → Option TargetInfo
  | .ok x => x
  | .error _ => none

/-- A cooperating concrete backend: every operation succeeds, every
descriptor query returns the same descriptor. -/
def cexBackend : Backend :=
  { attachOk := fun _ => .ok ()
    getTargetInfo := fun _ =>
      .ok (some { targetId := some "T1", targetType := some "page", url := some "http://main",
                  title := some "main", browserContextId := some "B" })
    sendCmd := fun _ _ _ => .ok "OK"
    detachOk := fun _ => .ok ()
    getTab := fun _ => .ok (some { url := some "http://tab", title := some "tab" }) }

/-- Backend distinguishing the child descriptor (browser context `A`) from
the main descriptor (browser context `B`). -/
def bC3 : Backend :=
  { attachOk := fun _ => .ok ()
    getTargetInfo := fun t =>
      if t = some 7 then
        .ok (some { targetId := some "T7", targetType := some "page", url := some "http://c",
                    title := some "child", browserContextId := some "A" })
      else
        .ok (some { targetId := some "T1", targetType := some "page", url := some "http://m",
                    title := some "main", browserContextId := some "B" })
    sendCmd := fun _ _ _ => .ok "OK"
    detachOk := fun _ => .ok ()
    getTab := fun _ => .ok (some { url := some "http://tab7", title := some "tab7" }) }

/-- Backend whose child descriptor query returns a reply with no
`targetInfo` field. -/
def bC4 : Backend :=
  { attachOk := fun _ => .ok ()
    getTargetInfo := fun t => if t = some 7 then .ok none else
      .ok (some { targetId := some "T1", targetType := some "page", url := some "http://m",
                  title := some "main", browserContextId := some "B" })
    sendCmd := fun _ _ _ => .ok "OK"
    detachOk := fun _ => .ok ()
    getTab := fun _ => .ok (some { url := some "http://tab7", title := some "tab7" }) }

/-- Session state after `setTabId 1` and a completed `attachToTab` against
`bC3`. -/
def c3state : RelayState := (handleCommand (setTabId initialState 1) bC3 .attachToTab).2.1

/-- Session state with main tab 1 bound and attached and one known child 5. -/
def c2state : RelayState :=
  { debuggeeTabId := some 1
    tabResolved := true
    closed := false
    listenersActive := true
    childTabs := [5]
    tabIdToTargetId := [(1, "T1"), (5, "C5")]
    mainTabTargetId := some "T1" }

/-- The attach event synthesized for child 7 of `c3state` against `bC3`. -/
def cexEvent3 : AttachedEvent :=
  { sessionId := "tab-7"
    targetId := "T7"
    targetType := "page"
    url := "http://tab7"
    title := "tab7"
    openerId := some "T1"
    browserContextId := some "B" }

/-- An element is a member of the set it was just inserted into. -/
theorem mem_setInsert_self (l : List Nat) (x : Nat) : x ∈ setInsert l x := by
  unfold setInsert
  by_cases h : x ∈ l
  · simp [h]
  · simp [h]

/-- Looking up the key just written into a map yields the written value. -/
theorem lookup_mapSet_self (m : List (Nat × String)) (k : Nat) (v : String) :
    (mapSet m k v).lookup k = some v := by
  induction m with
  | nil => simp [mapSet, List.lookup]
  | cons p rest ih =>
    obtain ⟨k', v'⟩ := p
    by_cases h : k' = k
    · subst h; simp [mapSet, List.lookup]
    · simp only [mapSet, if_neg h, List.lookup]
      have : (k == k') = false := by
        simp [Ne.symm h]
      simp [this, ih]

/-- The resolved debugger session of a general forwarded command targets the
tab the routing rule of the spec names. -/
theorem resolveSession_tabId_eq (s : RelayState) (sid : Option String) :
    (resolveSession s sid).tabId = specRouteTab s sid := by
  cases sid with
  | none => rfl
  | some str =>
    by_cases h0 : str = ""
    · subst h0; simp [resolveSession, specRouteTab]
    · by_cases ht : strStartsWithTab str = true
      · simp only [resolveSession, specRouteTab, h0, ht]
        cases hk : knownChildOf s.childTabs str <;> simp [h0, hk]
      · have hk : knownChildOf s.childTabs str = none := by simp [knownChildOf, ht]
        simp [resolveSession, specRouteTab, h0, ht, hk]

/-- Detaching the children during teardown never fires the close
notification. -/
theorem countP_detachChild_fireClose (l : List Nat) :
    (l.map TeardownAction.detachChild).countP isFireClose = 0 := by
  induction l with
  | nil => rfl
  | cons x xs ih => simp [List.countP_cons, isFireClose, ih]

/-- Every branch of the attach continuation keeps the candidate in the
children set (it was added right after the backend attach resolved). -/
theorem mem_resume_childTabs (s : RelayState) (b : Backend) (t : Nat) :
    t ∈ (attachToNewTabResume s b t).1.childTabs := by
  unfold attachToNewTabResume
  cases hgi : b.getTargetInfo (some t) with
  | error e => simpa [childAdded] using mem_setInsert_self s.childTabs t
  | ok tio =>
    cases tio with
    | none => simpa [childAdded] using mem_setInsert_self s.childTabs t
    | some ti =>
      cases hgt : b.getTab t with
      | error e => simpa [childAdded] using mem_setInsert_self s.childTabs t
      | ok tabo =>
        cases tabo with
        | none => simpa [childAdded] using mem_setInsert_self s.childTabs t
        | some tab =>
          by_cases hd : truthyNat s.debuggeeTabId = true
          · simp only [hd, if_true]
            cases hgm : b.getTargetInfo s.debuggeeTabId with
            | error e =>
              simpa [childWithTarget, childAdded] using mem_setInsert_self s.childTabs t
            | ok mo =>
              simpa [childWithTarget, childAdded] using mem_setInsert_self s.childTabs t
          · simp only [hd, if_false]
            simpa [childAdded] using mem_setInsert_self s.childTabs t

/-- Facts available whenever the attach continuation emits the synthesized
attach event: the event fields are built from the stored or freshly fetched
main descriptor, and the child is recorded in both containers. -/
theorem attachResume_emit_facts (s : RelayState) (b : Backend) (t : Nat) (e : AttachedEvent)
    (h : OutEvent.attachedToTarget e ∈ (attachToNewTabResume s b t).2.1) :
    e.openerId = jsOrStr s.mainTabTargetId
        ((exceptTI (b.getTargetInfo s.debuggeeTabId)).bind TargetInfo.targetId)
    ∧ e.browserContextId = jsOrStr
        ((exceptTI (b.getTargetInfo s.debuggeeTabId)).bind TargetInfo.browserContextId)
        ((exceptTI (b.getTargetInfo (some t))).bind TargetInfo.browserContextId)
    ∧ t ∈ (attachToNewTabResume s b t).1.childTabs
    ∧ ((attachToNewTabResume s b t).1.tabIdToTargetId.lookup t).isSome = true := by
  cases hgi : b.getTargetInfo (some t) with
  | error err => simp only [attachToNewTabResume, hgi] at h; simp at h
  | ok tio =>
    cases tio with
    | none => simp only [attachToNewTabResume, hgi] at h; simp at h
    | some ti =>
      cases hgt : b.getTab t with
      | error err => simp only [attachToNewTabResume, hgi, hgt] at h; simp at h
      | ok tabo =>
        cases tabo with
        | none => simp only [attachToNewTabResume, hgi, hgt] at h; simp at h
        | some tab =>
          by_cases hd : truthyNat s.debuggeeTabId = true
          · cases hgm : b.getTargetInfo s.debuggeeTabId with
            | error err =>
              simp only [attachToNewTabResume, hgi, hgt, hgm, hd, if_true] at h
              simp at h
            | ok mo =>
              simp only [attachToNewTabResume, hgi, hgt, hgm, hd, if_true,
                List.mem_singleton, OutEvent.attachedToTarget.injEq] at h
              subst h
              refine ⟨by simp [exceptTI, hgm], by simp [exceptTI, hgm, hgi], ?_, ?_⟩
              · simp only [attachToNewTabResume, hgi, hgt, hgm, hd, if_true]
                simpa [childWithTarget, childAdded] using mem_setInsert_self s.childTabs t
              · simp only [attachToNewTabResume, hgi, hgt, hgm, hd, if_true, childWithTarget]
                simp [lookup_mapSet_self]
          · simp only [attachToNewTabResume, hgi, hgt, hd, if_false] at h
            simp at h

/-- C1, counterexample: in the session state reached from the initial state
by `setTabId 5` alone — so `attachToTab` never ran, let alone completed, and
no backend attach was ever invoked — a `forwardCDPCommand` succeeds with the
backend result instead of failing with the not-ready error.  The guard the
code applies is tab designation, not bind completion. -/
theorem C1_counterexample :
    (handleCommand (setTabId initialState 5) cexBackend
        (.forwardCDP none "Page.enable" none)).1 = .ok (some (.forwarded "OK"))
    ∧ (handleCommand (setTabId initialState 5) cexBackend
        (.forwardCDP none "Page.enable" none)).1 ≠ .err notReadyError
    ∧ (handleCommand (setTabId initialState 5) cexBackend
        (.forwardCDP none "Page.enable" none)).2.2.countP isAttachCall = 0 := by
  refine ⟨by decide, by decide, by decide⟩

/-- C1, amended: a `forwardCDPCommand` fails with the not-ready error telling
the caller to select a target exactly when the session has no truthy debuggee
tab id, that is when `setTabId` has not designated a tab; completion of
`attachToTab` is not what the guard checks. -/
theorem C1_amended_notReady (s : RelayState) (b : Backend)
    (sid : Option String) (m : String) (psid : Option String)
    (h : truthyNat s.debuggeeTabId = false) :
    handleCommand s b (.forwardCDP sid m psid) = (.err notReadyError, s, []) := by
  simp [handleCommand, h]

/-- C1, witness: the initial state has no designated tab, so the forwarded
command fails with the not-ready error. -/
theorem C1_amended_notReady_witness :
    handleCommand initialState cexBackend (.forwardCDP none "Page.enable" none)
      = (.err notReadyError, initialState, []) :=
  C1_amended_notReady initialState cexBackend none "Page.enable" none rfl

/-- C2, counterexample: in a session whose child 5 is known, the
`forwardCDPCommand` with outer session id `tab-5` and method
`Target.detachFromTarget` (no session id inside the forwarded params) is
issued against the primary handle 1 and not against child 5: the detach
special case ignores the outer session id, refuting the routing rule
quantified over every forwarded command. -/
theorem C2_counterexample :
    (handleCommand c2state cexBackend
        (.forwardCDP (some "tab-5") "Target.detachFromTarget" none)).2.2
      = [BackendCall.sendCommand (some 1) none "Target.detachFromTarget"] := by
  decide

/-- C2, amended: for every `forwardCDPCommand` whose method is not the
special-cased `Target.detachFromTarget`, the single backend operation issued
targets the tab of the routing rule — primary when the session id is absent
or empty, the child for a known `tab-N` session id, the primary otherwise —
and the backend result is returned verbatim (its error likewise). -/
theorem C2_amended_routing (s : RelayState) (b : Backend)
    (sid : Option String) (m : String) (psid : Option String)
    (hm : m ≠ "Target.detachFromTarget")
    (hd : truthyNat s.debuggeeTabId = true) :
    (handleCommand s b (.forwardCDP sid m psid)).2.2
        = [BackendCall.sendCommand (specRouteTab s sid) (resolveSession s sid).sessionId m]
    ∧ (handleCommand s b (.forwardCDP sid m psid)).1
        = (match b.sendCmd (resolveSession s sid).tabId (resolveSession s sid).sessionId m with
           | .ok r => Outcome.ok (some (.forwarded r))
           | .error e => Outcome.err e) := by
  have hr := resolveSession_tabId_eq s sid
  simp only [handleCommand, hd, if_true, hm, if_false, handleForward]
  cases hsc : b.sendCmd (resolveSession s sid).tabId (resolveSession s sid).sessionId m <;>
    simp [hsc, hr]

/-- C2, witness: the spec scenario — session id `tab-999` with 999 not a
known child is forwarded to the primary target instead of failing. -/
theorem C2_amended_routing_witness :
    (handleCommand c2state cexBackend
        (.forwardCDP (some "tab-999") "Page.enable" none)).2.2
      = [BackendCall.sendCommand (specRouteTab c2state (some "tab-999"))
          (resolveSession c2state (some "tab-999")).sessionId "Page.enable"] :=
  (C2_amended_routing c2state cexBackend (some "tab-999") "Page.enable" none
    (by decide) (by decide)).1

/-- C3, counterexample: child 7 of `c3state` has browser context `A` in its
own descriptor while the primary descriptor carries `B`; the synthesized
attach event carries `B`, so the primary value is preferred and the child
value is only the fallback — the reverse of the claimed precedence. -/
theorem C3_counterexample :
    (attachToNewTab c3state bC3 7).2.1 = [OutEvent.attachedToTarget cexEvent3]
    ∧ (exceptTI (bC3.getTargetInfo (some 7))).bind TargetInfo.browserContextId = some "A"
    ∧ cexEvent3.browserContextId = some "B"
    ∧ cexEvent3.browserContextId ≠ some "A" := by
  refine ⟨by decide, by decide, by decide, by decide⟩

/-- C3, amended: every synthesized attach event carries `openerId` equal to
the primary native target identifier (the one stored at bind time, else the
freshly fetched primary descriptor identifier — never the backend handle)
and `browserContextId` equal to the primary descriptor value when that is
present, the child descriptor value being used only when the primary
descriptor omits it. -/
theorem C3_amended_event_fields (s : RelayState) (b : Backend) (tabId : Nat)
    (e : AttachedEvent)
    (h : OutEvent.attachedToTarget e ∈ (attachToNewTab s b tabId).2.1) :
    e.openerId = jsOrStr s.mainTabTargetId
        ((exceptTI (b.getTargetInfo s.debuggeeTabId)).bind TargetInfo.targetId)
    ∧ e.browserContextId = jsOrStr
        ((exceptTI (b.getTargetInfo s.debuggeeTabId)).bind TargetInfo.browserContextId)
        ((exceptTI (b.getTargetInfo (some tabId))).bind TargetInfo.browserContextId) := by
  by_cases ha : attachAborts s tabId
  · simp only [attachToNewTab, if_pos ha] at h
    simp at h
  · cases hat : b.attachOk (some tabId) with
    | error err =>
      simp only [attachToNewTab, if_neg ha, hat] at h
      simp at h
    | ok u =>
      simp only [attachToNewTab, if_neg ha, hat] at h
      exact ⟨(attachResume_emit_facts s b tabId e h).1,
        (attachResume_emit_facts s b tabId e h).2.1⟩

/-- C3, witness: the event synthesized for child 7 of `c3state` against
`bC3` satisfies both field equations. -/
theorem C3_amended_event_fields_witness :
    cexEvent3.openerId = jsOrStr c3state.mainTabTargetId
        ((exceptTI (bC3.getTargetInfo c3state.debuggeeTabId)).bind TargetInfo.targetId)
    ∧ cexEvent3.browserContextId = jsOrStr
        ((exceptTI (bC3.getTargetInfo c3state.debuggeeTabId)).bind TargetInfo.browserContextId)
        ((exceptTI (bC3.getTargetInfo (some 7))).bind TargetInfo.browserContextId) :=
  C3_amended_event_fields c3state bC3 7 cexEvent3 (by decide)

/-- C4, counterexample: against `bC4` the descriptor query of child 7
returns a reply without descriptor; the attach procedure aborts after the
child was already added to the children set and before any map entry was
written, so the claimed invariant — every handle in children has a map
entry — is broken in a state reached by ordinary operations. -/
theorem C4_counterexample :
    7 ∈ (attachToNewTab c3state bC4 7).1.childTabs
    ∧ (attachToNewTab c3state bC4 7).1.tabIdToTargetId.lookup 7 = none
    ∧ (attachToNewTab c3state bC4 7).2.1 = [] := by
  refine ⟨by decide, by decide, by decide⟩

/-- C4, amended: the attach procedure records the child in the children set
immediately after the backend attach succeeds — so a failure between that
point and descriptor recording (missing descriptor or missing host tab
metadata) leaves the child in children with no map entry; whenever the
procedure reaches the point of emitting the attach event, the child is
recorded in both children and the map. -/
theorem C4_amended_attach_consistency (s : RelayState) (b : Backend) (t : Nat) :
    (∀ e, OutEvent.attachedToTarget e ∈ (attachToNewTab s b t).2.1 →
        t ∈ (attachToNewTab s b t).1.childTabs
        ∧ ((attachToNewTab s b t).1.tabIdToTargetId.lookup t).isSome = true)
    ∧ (¬ attachAborts s t → b.attachOk (some t) = .ok () →
        t ∈ (attachToNewTab s b t).1.childTabs) := by
  constructor
  · intro e h
    by_cases ha : attachAborts s t
    · simp only [attachToNewTab, if_pos ha] at h
      simp at h
    · cases hat : b.attachOk (some t) with
      | error err =>
        simp only [attachToNewTab, if_neg ha, hat] at h
        simp at h
      | ok u =>
        simp only [attachToNewTab, if_neg ha, hat] at h
        refine ⟨?_, ?_⟩
        · simp only [attachToNewTab, if_neg ha, hat]
          exact (attachResume_emit_facts s b t e h).2.2.1
        · simp only [attachToNewTab, if_neg ha, hat]
          exact (attachResume_emit_facts s b t e h).2.2.2
  · intro ha hat
    simp only [attachToNewTab, if_neg ha, hat]
    exact mem_resume_childTabs s b t

/-- C4, witness: the fully successful attach of child 7 of `c3state`
against `bC3` leaves the child in both containers. -/
theorem C4_amended_attach_consistency_witness :
    7 ∈ (attachToNewTab c3state bC3 7).1.childTabs
    ∧ ((attachToNewTab c3state bC3 7).1.tabIdToTargetId.lookup 7).isSome = true :=
  (C4_amended_attach_consistency c3state bC3 7).1 cexEvent3 (by decide)

/-- Closed session state obtained by tearing `c3state` down. -/
def closedState : RelayState := (onClose c3state).1

/-- C5, counterexample: a child attach for tab 7 passes the entry guard
while `c3state` is open; the session then closes (draining both
containers); when the continuation resumes after the backend attach
resolved, it still records the child — the closed state ends up with a
non-empty children set and a map entry, refuting both that the containers
stay empty once closed and that post-close continuations discard their
results. -/
theorem C5_counterexample :
    ¬ attachAborts c3state 7
    ∧ closedState.closed = true
    ∧ closedState.childTabs = []
    ∧ (attachToNewTabResume closedState cexBackend 7).1.closed = true
    ∧ (attachToNewTabResume closedState cexBackend 7).1.childTabs = [7] := by
  refine ⟨by decide, by decide, by decide, by decide, by decide⟩

/-- C5, amended: teardown does drain both containers and set the closed
flag, and a child attach that begins on a closed session is a complete
no-op (no state change, no event, no backend call); but only the entry of
the attach procedure checks the closed flag — a continuation already past
the entry guard that resumes after close still mutates the session. -/
theorem C5_amended_close_guard :
    (∀ s : RelayState, s.closed = false →
        (onClose s).1.closed = true ∧ (onClose s).1.childTabs = []
          ∧ (onClose s).1.tabIdToTargetId = [])
    ∧ (∀ (s : RelayState) (b : Backend) (t : Nat), s.closed = true →
        attachToNewTab s b t = (s, [], [])) := by
  constructor
  · intro s h
    simp [onClose, h]
  · intro s b t h
    have ha : attachAborts s t := Or.inl h
    simp [attachToNewTab, ha]

/-- C5, witness: tearing down the open `c3state` drains it, and a fresh
child attach on the closed state is a no-op. -/
theorem C5_amended_close_guard_witness :
    ((onClose c3state).1.closed = true ∧ (onClose c3state).1.childTabs = []
        ∧ (onClose c3state).1.tabIdToTargetId = [])
    ∧ attachToNewTab closedState cexBackend 9 = (closedState, [], []) :=
  ⟨C5_amended_close_guard.1 c3state (by decide),
    C5_amended_close_guard.2 closedState cexBackend 9 (by decide)⟩

/-- C6, counterexample: two `attachToTab` commands processed on the same
session each invoke the backend attach on the primary target, so the attach
operation is invoked twice — nothing deduplicates repeated binds. -/
theorem C6_counterexample :
    (runCommands (setTabId initialState 5) cexBackend
        [.attachToTab, .attachToTab]).2.countP isAttachCall = 2 := by
  decide

/-- C6, amended: each `attachToTab` command that runs (tab promise
resolved) invokes the backend attach on the primary target exactly once,
and no forwarded or unrecognized command ever invokes attach; the
at-most-once bound therefore holds per bind command, not per session. -/
theorem C6_amended_attach_per_bind (s : RelayState) (b : Backend)
    (h : s.tabResolved = true) :
    (handleCommand s b .attachToTab).2.2.countP isAttachCall = 1
    ∧ (∀ sid m psid,
        (handleCommand s b (.forwardCDP sid m psid)).2.2.countP isAttachCall = 0)
    ∧ (∀ m, (handleCommand s b (.unknown m)).2.2.countP isAttachCall = 0) := by
  refine ⟨?_, ?_, ?_⟩
  · simp only [handleCommand, handleAttachToTab, h, if_true]
    cases hat : b.attachOk s.debuggeeTabId with
    | error e => simp [List.countP_cons, isAttachCall]
    | ok u =>
      cases hgt : b.getTargetInfo s.debuggeeTabId with
      | error e => simp [List.countP_cons, isAttachCall]
      | ok tio => simp [List.countP_cons, isAttachCall]
  · intro sid m psid
    by_cases hd : truthyNat s.debuggeeTabId = true
    · simp only [handleCommand, hd, if_true]
      by_cases hm : m = "Target.detachFromTarget"
      · subst hm
        simp only [if_pos rfl, handleDetachFromTarget]
        cases hk : (match psid with
                    | some tsid => knownChildOf s.childTabs tsid
                    | none => none) with
        | some c =>
          cases hdo : b.detachOk c <;>
            simp [hdo, List.countP_cons, isAttachCall]
        | none =>
          cases hsc : b.sendCmd s.debuggeeTabId none "Target.detachFromTarget" <;>
            simp [hsc, List.countP_cons, isAttachCall]
      · simp only [if_neg hm, handleForward]
        cases hsc : b.sendCmd (resolveSession s sid).tabId
            (resolveSession s sid).sessionId m <;>
          simp [hsc, List.countP_cons, isAttachCall]
    · rw [Bool.not_eq_true] at hd
      simp [handleCommand, hd]
  · intro m
    by_cases hd : truthyNat s.debuggeeTabId = true
    · simp [handleCommand, hd]
    · rw [Bool.not_eq_true] at hd
      simp [handleCommand, hd]

/-- C6, witness: a single `attachToTab` on a session with a designated tab
invokes the backend attach exactly once. -/
theorem C6_amended_attach_per_bind_witness :
    (handleCommand (setTabId initialState 5) cexBackend .attachToTab).2.2.countP
        isAttachCall = 1 :=
  (C6_amended_attach_per_bind (setTabId initialState 5) cexBackend rfl).1

/-- C7: tearing down a session that is not yet closed performs, in order,
the listener removal first, then a best-effort detach of every tracked
child (the action list does not depend on backend results, so failures are
swallowed), the clearing of both containers, a best-effort detach of the
primary handle and the close notification fired exactly once; the resulting
state is closed and drained, and a second teardown performs nothing. -/
theorem C7_teardown_once (s : RelayState) (h : s.closed = false) :
    (onClose s).2 = TeardownAction.removeListeners ::
        (s.childTabs.map TeardownAction.detachChild ++
          [TeardownAction.clearChildren, TeardownAction.clearMap,
            TeardownAction.detachPrimary s.debuggeeTabId, TeardownAction.fireOnClose])
    ∧ (onClose s).1.closed = true
    ∧ (onClose s).1.listenersActive = false
    ∧ (onClose s).1.childTabs = []
    ∧ (onClose s).1.tabIdToTargetId = []
    ∧ (onClose s).2.countP isFireClose = 1
    ∧ (onClose (onClose s).1).2 = [] := by
    repeat' constructor
    all_goals simp [onClose, h, List.countP_cons, List.countP_append, isFireClose,
      countP_detachChild_fireClose]

/-- C7, witness: teardown of the open `c3state` fires the notification once
and a second teardown performs nothing. -/
theorem C7_teardown_once_witness :
    (onClose c3state).2.countP isFireClose = 1
    ∧ (onClose (onClose c3state).1).2 = [] :=
  ⟨(C7_teardown_once c3state (by decide)).2.2.2.2.2.1,
    (C7_teardown_once c3state (by decide)).2.2.2.2.2.2⟩

/-- C8: a forwarded `Target.detachFromTarget` whose params name a known child
session, when the backend detach succeeds, detaches that child handle
directly — the trace holds exactly the detach primitive, no protocol-level
command — removes the child from both the children set and the map, and
returns the empty success object. -/
theorem C8_child_detach (s : RelayState) (b : Backend) (sid : Option String)
    (tsid : String) (c : Nat)
    (hd : truthyNat s.debuggeeTabId = true)
    (hc : knownChildOf s.childTabs tsid = some c)
    (hb : b.detachOk c = .ok ()) :
    handleCommand s b (.forwardCDP sid "Target.detachFromTarget" (some tsid))
      = (.ok (some .emptyObj),
          { s with
            childTabs := setDelete s.childTabs c
            tabIdToTargetId := mapDelete s.tabIdToTargetId c },
          [.detach (some c)]) := by
  simp [handleCommand, hd, handleDetachFromTarget, hc, hb]

/-- C8, witness: detaching the known child 5 of `c2state` removes it from
both containers and answers with the empty object. -/
theorem C8_child_detach_witness :
    handleCommand c2state cexBackend
        (.forwardCDP none "Target.detachFromTarget" (some "tab-5"))
      = (.ok (some .emptyObj),
          { c2state with
            childTabs := setDelete c2state.childTabs 5
            tabIdToTargetId := mapDelete c2state.tabIdToTargetId 5 },
          [.detach (some 5)]) :=
  C8_child_detach c2state cexBackend none "tab-5" 5 (by decide) (by decide) rfl

/-- A recognized command that returns normally always returns an actual
value: `attachToTab` returns the descriptor object and `forwardCDPCommand`
returns either the empty object or the forwarded payload; only an
unrecognized method falls off the end of the dispatcher with the JS
`undefined`. -/
theorem handleCommand_ok_isSome (s : RelayState) (b : Backend) (c : Command)
    (hm : ∀ m, c ≠ Command.unknown m) :
    ∀ ro, (handleCommand s b c).1 = Outcome.ok ro → ro.isSome = true := by
  intro ro hr
  cases c with
  | unknown m => exact absurd rfl (hm m)
  | attachToTab =>
    by_cases ht : s.tabResolved = true
    · simp only [handleCommand, handleAttachToTab, ht, if_true] at hr
      cases hat : b.attachOk s.debuggeeTabId with
      | error e => simp [hat] at hr
      | ok u =>
        cases hgt : b.getTargetInfo s.debuggeeTabId with
        | error e => simp [hat, hgt] at hr
        | ok tio =>
          simp only [hat, hgt] at hr
          cases hr
          rfl
    · rw [Bool.not_eq_true] at ht
      simp [handleCommand, handleAttachToTab, ht] at hr
  | forwardCDP sid m psid =>
    by_cases hd : truthyNat s.debuggeeTabId = true
    · simp only [handleCommand, hd, if_true] at hr
      by_cases hm' : m = "Target.detachFromTarget"
      · subst hm'
        simp only [if_pos rfl, handleDetachFromTarget] at hr
        cases hk : (match psid with
                    | some tsid => knownChildOf s.childTabs tsid
                    | none => none) with
        | some c' =>
          cases hdo : b.detachOk c' with
          | error e => simp [hk, hdo] at hr
          | ok u =>
            simp only [hk, hdo] at hr
            cases hr
            rfl
        | none =>
          cases hsc : b.sendCmd s.debuggeeTabId none "Target.detachFromTarget" with
          | error e => simp [hk, hsc] at hr
          | ok r =>
            simp only [hk, hsc] at hr
            cases hr
            rfl
      · simp only [if_neg hm', handleForward] at hr
        cases hsc : b.sendCmd (resolveSession s sid).tabId
            (resolveSession s sid).sessionId m with
        | error e => simp [hsc] at hr
        | ok r =>
          simp only [hsc] at hr
          cases hr
          rfl
    · rw [Bool.not_eq_true] at hd
      simp [handleCommand, hd] at hr

/-- C9, counterexample: a well-formed inbound message with the unrecognized
method `bogus` on a session with a designated tab gets a response that
carries the request id but neither a result nor an error — the dispatcher
falls off the end with the JS `undefined`, which the JSON serialization
drops. -/
theorem C9_counterexample :
    responseFor (setTabId initialState 5) cexBackend 7 (.unknown "bogus")
      = some { id := 7, result := none, error := none } := by
  decide

/-- C9, amended: every response carries the same id as the request, and for
the recognized methods (`attachToTab` and `forwardCDPCommand`) it carries
exactly one of the result and error fields; an unrecognized method with a
target bound yields a response with neither field. -/
theorem C9_amended_envelope (s : RelayState) (b : Backend) (n : Nat) (c : Command) :
    ∀ r, responseFor s b n c = some r →
      r.id = n
      ∧ ((∀ m, c ≠ Command.unknown m) →
          ((r.result.isSome = true ∧ r.error = none)
            ∨ (r.result = none ∧ r.error.isSome = true))) := by
  intro r hr
  unfold responseFor at hr
  cases hout : (handleCommand s b c).1 with
  | ok ro =>
    rw [hout] at hr
    cases hr
    refine ⟨rfl, fun hm => ?_⟩
    exact Or.inl ⟨handleCommand_ok_isSome s b c hm ro hout, rfl⟩
  | err e =>
    rw [hout] at hr
    cases hr
    exact ⟨rfl, fun _ => Or.inr ⟨rfl, rfl⟩⟩
  | blocked =>
    rw [hout] at hr
    cases hr

/-- C9, witness: a successful forwarded command gets a response with the
request id and exactly a result. -/
theorem C9_amended_envelope_witness :
    ({ id := 7, result := some (.forwarded "OK"), error := none } : OutResponse).id = 7
    ∧ ((∀ m, (Command.forwardCDP none "Page.enable" none) ≠ Command.unknown m) →
        ((({ id := 7, result := some (.forwarded "OK"), error := none }
              : OutResponse).result.isSome = true
            ∧ ({ id := 7, result := some (.forwarded "OK"), error := none }
              : OutResponse).error = none)
          ∨ (({ id := 7, result := some (.forwarded "OK"), error := none }
              : OutResponse).result = none
            ∧ ({ id := 7, result := some (.forwarded "OK"), error := none }
              : OutResponse).error.isSome = true))) :=
  C9_amended_envelope (setTabId initialState 5) cexBackend 7
    (.forwardCDP none "Page.enable" none)
    { id := 7, result := some (.forwarded "OK"), error := none } (by decide)

/-- C10: a backend detach notification whose source has no tab id, arriving
while no primary target has been designated, satisfies the strict equality
test (both sides undefined) and tears the whole session down — the state
becomes closed, the close notification fires, and the debuggee stays
cleared — even though no attachment ever existed. -/
theorem C10_empty_detach_teardown (s : RelayState)
    (h1 : s.debuggeeTabId = none) (h2 : s.closed = false) :
    (onDebuggerDetach s none).1.closed = true
    ∧ (onDebuggerDetach s none).1.debuggeeTabId = none
    ∧ TeardownAction.fireOnClose ∈ (onDebuggerDetach s none).2.1 := by
  simp [onDebuggerDetach, h1, onClose, h2]

/-- C10, witness: the freshly constructed session, with no tab ever
designated and no attachment ever made, is torn down by such a
notification. -/
theorem C10_empty_detach_teardown_witness :
    (onDebuggerDetach initialState none).1.closed = true
    ∧ (onDebuggerDetach initialState none).1.debuggeeTabId = none
    ∧ TeardownAction.fireOnClose ∈ (onDebuggerDetach initialState none).2.1 :=
  C10_empty_detach_teardown initialState rfl rfl

end ApplyBotRelay
